import Mathlib

/-!
Verification of the container-use-web backend against its specification.

The definitions below are a shallow embedding of the Python sources:
  * `src/backend/app/core/container_use.py` — `run_container_use_command`,
    `parse_environment_list`;
  * `src/backend/app/api/routes/environments.py` — the logs/diff/action
    HTTP status mapping, `watch_environments_websocket` and
    `terminal_websocket` (stream readers, inbound relay, receive loop,
    and the process teardown sequence).

Python strings are modelled as `List Char` (or `String`), byte strings as
`List Nat` (each element < 256), decoded text as lists of Unicode code
points (`List Nat`).  Exceptions are modelled as explicit alternatives in
the input or output of the embedded functions.
-/

/-! ## Python text primitives -/

/-- The whitespace characters recognised by Python's `str.strip()` and by
`\s` in `re` for ASCII text: space, tab, newline, carriage return,
vertical tab, form feed. -/
def isPySpace (c : Char) : Bool :=
  c = ' ' || c = '\t' || c = '\n' || c = '\r' || c = '\x0b' || c = '\x0c'

/-- Python `str.strip()`: remove leading and trailing whitespace. -/
def pyStrip (cs : List Char) : List Char :=
  ((cs.dropWhile isPySpace).reverse.dropWhile isPySpace).reverse

/-- Python `str.split("\n")`: split on every newline; `"".split("\n")`
is `[""]`. -/
def splitNl : List Char → List (List Char)
  | [] => [[]]
  | c :: cs =>
    if c = '\n' then [] :: splitNl cs
    else
      match splitNl cs with
      | [] => [[c]]
      | f :: rest => (c :: f) :: rest

/-- Python `str.lower()` restricted to ASCII case folding (the needles the
code compares against are pure ASCII). -/
def pyLower (s : String) : String :=
  ⟨s.data.map Char.toLower⟩

/-- Python `needle in hay` substring test on character lists. -/
def listContainsSub (needle : List Char) : List Char → Bool
  | [] => needle.isEmpty
  | c :: hay => needle.isPrefixOf (c :: hay) || listContainsSub needle hay

/-- The code points of a Lean string literal; for an ASCII literal this is
also its UTF-8 byte sequence. -/
def strCodes (s : String) : List Nat :=
  s.data.map Char.toNat

/-! ## Strict UTF-8 decoding

`bytes.decode("utf-8")` with the default `errors="strict"`: any invalid
byte sequence (stray continuation byte, overlong encoding, surrogate,
code point above U+10FFFF, truncated sequence) raises
`UnicodeDecodeError`, modelled as `none`. -/

/-- a UTF-8 continuation byte, `0x80..0xBF`. -/
def isCont (b : Nat) : Bool :=
  0x80 ≤ b && b < 0xC0

/-- Strict UTF-8 decode of a byte list into Unicode code points. -/
def utf8Decode : List Nat → Option (List Nat)
  | [] => some []
  | b :: bs =>
    if b < 0x80 then (utf8Decode bs).map (b :: ·)
    else if b < 0xC2 then none
    else if b < 0xE0 then
      match bs with
      | b2 :: rest =>
        if isCont b2 then
          (utf8Decode rest).map (((b - 0xC0) * 0x40 + (b2 - 0x80)) :: ·)
        else none
      | [] => none
    else if b < 0xF0 then
      match bs with
      | b2 :: b3 :: rest =>
        if (if b = 0xE0 then decide (0xA0 ≤ b2) && decide (b2 < 0xC0)
            else if b = 0xED then decide (0x80 ≤ b2) && decide (b2 < 0xA0)
            else isCont b2) && isCont b3 then
          (utf8Decode rest).map
            (((b - 0xE0) * 0x1000 + (b2 - 0x80) * 0x40 + (b3 - 0x80)) :: ·)
        else none
      | _ => none
    else if b < 0xF5 then
      match bs with
      | b2 :: b3 :: b4 :: rest =>
        if (if b = 0xF0 then decide (0x90 ≤ b2) && decide (b2 < 0xC0)
            else if b = 0xF4 then decide (0x80 ≤ b2) && decide (b2 < 0x90)
            else isCont b2) && isCont b3 && isCont b4 then
          (utf8Decode rest).map
            (((b - 0xF0) * 0x40000 + (b2 - 0x80) * 0x1000 +
              (b3 - 0x80) * 0x40 + (b4 - 0x80)) :: ·)
        else none
      | _ => none
    else none

/-! ## `parse_environment_list` (container_use.py, lines 51-89) -/

/-- `app.models.Environment`: the four parsed columns. -/
structure Environment where
  id : String
  title : String
  created : String
  updated : String
deriving DecidableEq, Repr

/-- `re.split(r"\s{2,}", line)`: split on maximal runs of two or more
whitespace characters; a single whitespace character stays inside its
field.  `go` carries the current field and the pending whitespace run,
both reversed. -/
def splitWs2Go : List Char → List Char → List Char → List (List Char)
  | [], field, pend =>
    if 2 ≤ pend.length then [field.reverse, []]
    else [(pend ++ field).reverse]
  | c :: cs, field, pend =>
    if isPySpace c then splitWs2Go cs field (c :: pend)
    else if 2 ≤ pend.length then field.reverse :: splitWs2Go cs [c] []
    else splitWs2Go cs (c :: (pend ++ field)) []

/-- `re.split(r"\s{2,}", line)`. -/
def splitWs2 (line : List Char) : List (List Char) :=
  splitWs2Go line [] []

/-- `line.strip().startswith("ID")`. -/
def isHeaderLine (l : List Char) : Bool :=
  "ID".data.isPrefixOf (pyStrip l)

/-- The header-scan loop of `parse_environment_list`: index of the first
line whose stripped text starts with `"ID"` (the loop `break`s at the
first hit). -/
def headerIndex : List (List Char) → Option Nat
  | [] => none
  | l :: ls =>
    if isHeaderLine l then some 0
    else (headerIndex ls).map (· + 1)

/-- One iteration of the parsing loop of `parse_environment_list`:
skip an empty (stripped) line, split on whitespace runs, drop the row
if it has fewer than 4 fields, otherwise build an `Environment` from the
first four stripped fields. -/
def parseEnvRow (raw : List Char) : Option Environment :=
  let line := pyStrip raw
  if line = [] then none
  else
    let fields := splitWs2 line
    if 4 ≤ fields.length then
      some
        { id := ⟨pyStrip (fields.getD 0 [])⟩
          title := ⟨pyStrip (fields.getD 1 [])⟩
          created := ⟨pyStrip (fields.getD 2 [])⟩
          updated := ⟨pyStrip (fields.getD 3 [])⟩ }
    else none

/-- `parse_environment_list` (container_use.py, lines 51-89): strip the
whole output, split into lines, set `start_index` one past the first
line whose stripped text starts with `"ID"` (0 if there is none), then
parse every remaining line. -/
def parse_environment_list (output : List Char) : List Environment :=
  let lines := splitNl (pyStrip output)
  let start :=
    match headerIndex lines with
    | some i => i + 1
    | none => 0
  (lines.drop start).filterMap parseEnvRow

/-- Modelled from the claim's words, for comparison with the code: skip a
header row only when it is the leading row ("optionally preceded by a
header row"), and parse every other row. -/
def parse_environment_list_claimed (output : List Char) : List Environment :=
  let lines := splitNl (pyStrip output)
  let rows :=
    match lines with
    | [] => []
    | l :: ls => if isHeaderLine l then ls else l :: ls
  rows.filterMap parseEnvRow

/-- Rows strictly after the first header line, when a header line exists. -/
def afterFirstHeader : List (List Char) → Option (List (List Char))
  | [] => none
  | l :: ls =>
    if isHeaderLine l then some ls else afterFirstHeader ls

/-- Skip every row up to and including the first header line; keep all
rows when no line is a header line. -/
def dropThroughFirstHeader (lines : List (List Char)) : List (List Char) :=
  (afterFirstHeader lines).getD lines

/-- The amended description of the parser: drop every row up to and
including the first row whose stripped text starts with `"ID"`, then
parse the remaining rows. -/
def parse_environment_list_amended_spec (output : List Char) : List Environment :=
  ((dropThroughFirstHeader (splitNl (pyStrip output))).filterMap parseEnvRow)

/-! ## `run_container_use_command` (container_use.py, lines 14-48)

The whole body after the spawn sits inside one `try` block; any exception
raised there — by `create_subprocess_exec`, by `communicate()`, or by the
strict `.decode("utf-8")` calls — is caught and turned into the value
`("", str(e), 1)`.  The function never raises; spawning and communicating
are modelled by an explicit alternative in the input. -/

/-- The outcome of `create_subprocess_exec` + `communicate()`:
either some exception was raised (with `str(e)` as the message), or the
process ran, producing raw stdout/stderr bytes and an exit code
(`returncode`, `none` when unset). -/
inductive CommResult
  | raised (message : String)
  | completed (stdout stderr : List Nat) (returncode : Option Int)
deriving DecidableEq, Repr

/-- Python `v or 0` on an optional integer: `None` and `0` both give the
default. -/
def pyOrInt (v : Option Int) (d : Int) : Int :=
  match v with
  | none => d
  | some n => if n = 0 then d else n

/-- `run_container_use_command` (container_use.py, lines 14-48).
Returns decoded stdout, decoded stderr and the exit code; every
exception path yields `("", message, 1)`.  An undecodable output byte
string takes the same `except` path (its `UnicodeDecodeError` is caught
by the same handler). -/
def run_container_use_command (res : CommResult) : List Nat × List Nat × Int :=
  match res with
  | .raised message => ([], strCodes message, 1)
  | .completed o e rc =>
    match (if o = [] then some [] else utf8Decode o) with
    | none => ([], strCodes "UnicodeDecodeError", 1)
    | some so =>
      match (if e = [] then some [] else utf8Decode e) with
      | none => ([], strCodes "UnicodeDecodeError", 1)
      | some se => (so, se, pyOrInt rc 0)

/-! ## HTTP status mapping for logs / diff / actions
(environments.py, lines 60-87, 100-127 and 152-187; the three endpoints
share this block verbatim) -/

/-- The response computed by `get_environment_logs`,
`get_environment_diff` and `execute_action` from the tool's output. -/
inductive HttpOutcome
  | ok200 (body : String)
  | notFound404
  | serverError500
deriving DecidableEq, Repr

/-- `error_output = stderr or stdout` (Python falsy-string fallback). -/
def error_output (stdout stderr : String) : String :=
  if stderr = "" then stdout else stderr

/-- `"not found" in error_output.lower() or "does not exist" in
error_output.lower()`. -/
def isNotFoundOutput (errorOutput : String) : Bool :=
  listContainsSub "not found".data (pyLower errorOutput).data
  || listContainsSub "does not exist".data (pyLower errorOutput).data

/-- The not-found condition as the spec words it: the (case-folded)
error output has `"not found"` or `"does not exist"` as a substring. -/
def NotFoundDetected (s : String) : Prop :=
  "not found".data <:+: (pyLower s).data
  ∨ "does not exist".data <:+: (pyLower s).data

/-- The shared tail of the three request/response endpoints: non-zero
exit is mapped to 404 when the not-found condition holds on
`stderr or stdout` and to 500 otherwise; zero exit returns the captured
stdout with status 200. -/
def tool_result_status (stdout stderr : String) (return_code : Int) : HttpOutcome :=
  if return_code ≠ 0 then
    if isNotFoundOutput (error_output stdout stderr) then HttpOutcome.notFound404
    else HttpOutcome.serverError500
  else HttpOutcome.ok200 stdout

/-! ## WebSocket output readers
(environments.py: `handle_stdout` / `handle_stderr` in
`watch_environments_websocket`, lines 210-233, and in
`terminal_websocket`, lines 301-324) -/

/-- A server-to-client message `{"type": tag, "data": text}`; the text is
a list of Unicode code points. -/
structure WsOut where
  type : String
  data : List Nat
deriving DecidableEq, Repr

/-- The body of `handle_stdout` / `handle_stderr` in both handlers.  The
input list is the sequence of units the stream read returns (a line for
the watch handler's `readline()`, a ≤ 1024-byte chunk for the terminal
handler's `read(1024)`); an empty unit is EOF (`if not line: break`).
Each unit is decoded strictly and sent as one tagged message; a decode
failure — or a failed send — is caught by the blanket
`except Exception: break` and ends the reader. -/
def outputReaderLoop (tag : String) : List (List Nat) → List WsOut
  | [] => []
  | unit :: rest =>
    if unit = [] then []
    else
      match utf8Decode unit with
      | some cps => ⟨tag, cps⟩ :: outputReaderLoop tag rest
      | none => []

/-- `handle_stdout` of `watch_environments_websocket` (lines 210-221),
applied to the sequence of `readline()` results. -/
def watch_handle_stdout : List (List Nat) → List WsOut :=
  outputReaderLoop "stdout"

/-- `handle_stderr` of `watch_environments_websocket` (lines 223-233). -/
def watch_handle_stderr : List (List Nat) → List WsOut :=
  outputReaderLoop "stderr"

/-- `handle_stdout` of `terminal_websocket` (lines 301-311), applied to
the sequence of `read(1024)` results. -/
def terminal_handle_stdout : List (List Nat) → List WsOut :=
  outputReaderLoop "stdout"

/-- `handle_stderr` of `terminal_websocket` (lines 313-324). -/
def terminal_handle_stderr : List (List Nat) → List WsOut :=
  outputReaderLoop "stderr"

/-! ## The watch receive loop (environments.py, lines 241-247)

```
while True:
    try:
        await websocket.receive_text()
    except WebSocketDisconnect:
        break
```
The only awaited operation is `websocket.receive_text()`, so the only
events that can resume an iteration are an inbound text frame (the value
is discarded and the loop repeats) and a close frame
(`WebSocketDisconnect`, which `break`s into the teardown `finally`
block).  The subprocess is not awaited here: its exit is not an event of
this loop. -/

/-- An event that resumes `await websocket.receive_text()`. -/
inductive WatchLoopEvent
  | textReceived (s : String)
  | wsDisconnect
deriving DecidableEq, Repr

/-- One iteration of the watch receive loop: `true` means the loop
`break`s (teardown runs). -/
def watchReceiveStep : WatchLoopEvent → Bool
  | .textReceived _ => false
  | .wsDisconnect => true

/-- The watch receive loop over a finite sequence of websocket events:
`true` when some event makes it `break`; with no (further) events the
loop stays suspended in `receive_text` and teardown is not reached. -/
def watchReceiveLoopBreaks : List WatchLoopEvent → Bool
  | [] => false
  | e :: es => watchReceiveStep e || watchReceiveLoopBreaks es

/-! ## The terminal inbound relay
(`handle_websocket_input`, environments.py, lines 327-338) -/

/-- The outcome of one `await websocket.receive_json()`:
a JSON object with string fields, something that is not a JSON object
(invalid JSON or a non-dict document — `receive_json` or the subsequent
`.get` raises), or a close frame (`WebSocketDisconnect`). -/
inductive InboundMsg
  | jsonObject (fields : List (String × String))
  | notAJsonObject
  | wsDisconnect
deriving DecidableEq, Repr

/-- What one iteration of the relay loop does: keep looping (possibly
having written a payload to the process stdin) or end the task. -/
inductive RelayOut
  | keepRunning (written : Option String)
  | ends
deriving DecidableEq, Repr

/-- One iteration of `handle_websocket_input`.  A message whose `"type"`
is `"stdin"` has its `"data"` (default `""`) written to the process
stdin — when the pipe is broken the write/drain raises and the blanket
`except Exception: break` ends the task (`stdinWritable = false`).  Any
other JSON object is ignored and the loop continues.  A message that
fails to decode raises inside `receive_json`/`.get`, which the same
handler turns into `break`; a disconnect `break`s via the
`WebSocketDisconnect` handler. -/
def handle_websocket_input_step (stdinWritable : Bool) : InboundMsg → RelayOut
  | .jsonObject fields =>
    if fields.lookup "type" = some "stdin" then
      if stdinWritable then
        RelayOut.keepRunning (some ((fields.lookup "data").getD ""))
      else RelayOut.ends
    else RelayOut.keepRunning none
  | .notAJsonObject => RelayOut.ends
  | .wsDisconnect => RelayOut.ends

/-- Whether the inbound relay is still running after handling a message. -/
def relayContinues (stdinWritable : Bool) (m : InboundMsg) : Bool :=
  match handle_websocket_input_step stdinWritable m with
  | RelayOut.keepRunning _ => true
  | RelayOut.ends => false

/-! ## Terminal connection entry (environments.py, lines 281-298) -/

/-- What the head of `terminal_websocket` does right after `accept()`. -/
inductive TerminalStartOutcome
  | errorClose (sent : List String)
  | spawn (argv : List String)
deriving DecidableEq, Repr

/-- Whether the outcome spawned an external process. -/
def spawnsProcess : TerminalStartOutcome → Bool
  | .errorClose _ => false
  | .spawn _ => true

/-- The guard of `terminal_websocket`: `if not environment_id:` send the
single object `{"error": "Environment ID is required"}`, close, and
return without spawning; otherwise spawn
`container-use terminal <environment_id>`. -/
def terminal_websocket_entry (environment_id : String) : TerminalStartOutcome :=
  if environment_id = "" then
    TerminalStartOutcome.errorClose ["Environment ID is required"]
  else TerminalStartOutcome.spawn ["terminal", environment_id]

/-! ## Process teardown (environments.py, lines 250-256 and 354-362)

Both websocket handlers run the same cleanup in their `finally` block:

```
if process.returncode is None:
    [if process.stdin: process.stdin.close()]   # terminal handler only
    process.terminate()
    try:
        await asyncio.wait_for(process.wait(), timeout=5.0)
    except asyncio.TimeoutError:
        process.kill()
        await process.wait()
```
-/

/-- The (asyncio-visible) state of the spawned OS process.
`returncode` is `none` while the child has not exited; `reaped` records
that a `wait()` has returned for it. -/
structure Proc where
  returncode : Option Int
  termSignaled : Bool
  killSignaled : Bool
  stdinClosed : Bool
  reaped : Bool
deriving DecidableEq, Repr

/-- The primitive operations the teardown sequence performs, in order. -/
inductive TdStep
  | closeStdin
  | terminate
  | waitTimeout (seconds : Nat)
  | kill
  | wait
deriving DecidableEq, Repr

/-- `process.terminate()`: send the graceful-terminate signal; by itself
this does not change the exit status. -/
def procTerminate (p : Proc) : Proc :=
  { p with termSignaled := true }

/-- `process.kill()`: send SIGKILL; the kill is unconditional and the
child is guaranteed to exit, observed at the next `wait()`. -/
def procKill (p : Proc) : Proc :=
  { p with killSignaled := true }

/-- `await asyncio.wait_for(process.wait(), timeout=5.0)`: `some` when
the wait completes within the bound — the child had already exited, or
it honours the terminate signal within the bound
(`exitsWithinTimeout`) — and `none` for `asyncio.TimeoutError`. -/
def procWaitBounded (exitsWithinTimeout : Bool) (p : Proc) : Option Proc :=
  if p.returncode.isSome then some { p with reaped := true }
  else if exitsWithinTimeout then
    some { p with returncode := some (-15), reaped := true }
  else none

/-- `await process.wait()` with no timeout: returns (reaping the child)
once the child has exited; after SIGKILL exit is guaranteed.  `none`
models the wait never returning, which cannot happen after a kill. -/
def procWaitForever (p : Proc) : Option Proc :=
  if p.returncode.isSome then some { p with reaped := true }
  else if p.killSignaled then
    some { p with returncode := some (-9), reaped := true }
  else none

/-- The shared teardown sequence of both websocket handlers
(`hasStdin = true` for the terminal handler, which also closes the
process stdin first).  Returns the final process state and the ordered
list of steps performed; `none` would mean the routine never returns. -/
def supervisorTeardown (hasStdin exitsWithinTimeout : Bool) (p : Proc) :
    Option (Proc × List TdStep) :=
  if p.returncode = none then
    let p0 := if hasStdin then { p with stdinClosed := true } else p
    let steps0 := if hasStdin then [TdStep.closeStdin] else []
    let p1 := procTerminate p0
    match procWaitBounded exitsWithinTimeout p1 with
    | some p2 => some (p2, steps0 ++ [TdStep.terminate, TdStep.waitTimeout 5])
    | none =>
      match procWaitForever (procKill p1) with
      | some p3 =>
        some (p3, steps0 ++
          [TdStep.terminate, TdStep.waitTimeout 5, TdStep.kill, TdStep.wait])
      | none => none
  else some (p, [])

/-- The teardown of `watch_environments_websocket` (lines 250-256). -/
def watch_teardown : Bool → Proc → Option (Proc × List TdStep) :=
  supervisorTeardown false

/-- The teardown of `terminal_websocket` (lines 354-362). -/
def terminal_teardown : Bool → Proc → Option (Proc × List TdStep) :=
  supervisorTeardown true

/-- The step sequence the teardown performs, as the spec describes it:
optionally close stdin, send the graceful-terminate signal, wait up to
5 seconds, and only on timeout force-kill and wait unconditionally. -/
def teardownSteps (hasStdin exitsWithinTimeout : Bool) : List TdStep :=
  (if hasStdin then [TdStep.closeStdin] else []) ++
    [TdStep.terminate, TdStep.waitTimeout 5] ++
    (if exitsWithinTimeout then [] else [TdStep.kill, TdStep.wait])

/-! ## Terminal session supervision (environments.py, lines 340-371)

```
tasks = [create_task(handle_stdout()), create_task(handle_stderr()),
         create_task(handle_websocket_input())]
try:
    done, pending = await asyncio.wait(tasks, return_when=asyncio.FIRST_COMPLETED)
finally:
    <teardown as above>
    for task in tasks:
        if not task.done():
            task.cancel()
            try: await task
            except asyncio.CancelledError: pass
```
-/

/-- The state of one of the three concurrent tasks. -/
structure TaskSt where
  done : Bool
  cancelRequested : Bool
deriving DecidableEq, Repr

/-- `if not task.done(): task.cancel(); await task` — a finished task is
left untouched; a still-running one is cancelled and awaited, after
which it is done. -/
def cancelAndAwait (t : TaskSt) : TaskSt :=
  if t.done then t else { done := true, cancelRequested := true }

/-- The three tasks of one terminal session, in creation order. -/
structure TerminalTasks where
  stdoutTask : TaskSt
  stderrTask : TaskSt
  inputTask : TaskSt
deriving DecidableEq, Repr

/-- `asyncio.wait(tasks, return_when=FIRST_COMPLETED)` resumes exactly
when at least one task is done. -/
def anyTaskDone (ts : TerminalTasks) : Bool :=
  ts.stdoutTask.done || ts.stderrTask.done || ts.inputTask.done

/-- The `finally` block of `terminal_websocket`: run the teardown, then
cancel-and-await every task that is not yet done. -/
def terminal_cleanup (exitsWithinTimeout : Bool) (p : Proc)
    (ts : TerminalTasks) : Option (Proc × List TdStep × TerminalTasks) :=
  match terminal_teardown exitsWithinTimeout p with
  | some (p', tr) =>
    some (p', tr,
      ⟨cancelAndAwait ts.stdoutTask, cancelAndAwait ts.stderrTask,
        cancelAndAwait ts.inputTask⟩)
  | none => none

/-- The tail of `terminal_websocket`: the session suspends in
`asyncio.wait(..., FIRST_COMPLETED)` until some task completes, and then
runs the `finally` block. -/
def terminal_session_end (exitsWithinTimeout : Bool) (p : Proc)
    (ts : TerminalTasks) : Option (Proc × List TdStep × TerminalTasks) :=
  if anyTaskDone ts then terminal_cleanup exitsWithinTimeout p ts else none

/-- What the cleanup guarantees for one task: it is done afterwards, a
task that had already finished is untouched, and one that was still
running has been cancelled (and awaited). -/
def taskFinishedAfterCleanup (before after : TaskSt) : Prop :=
  after.done = true
  ∧ (before.done = true → after = before)
  ∧ (before.done = false → after.cancelRequested = true)

/-! ## Helper lemmas -/

/-- The substring test agrees with list-infix containment. -/
theorem listContainsSub_iff_infix (needle : List Char) :
    ∀ hay : List Char, listContainsSub needle hay = true ↔ needle <:+: hay := by
  intro hay
  induction hay with
  | nil =>
    simp [listContainsSub, List.isEmpty_iff, List.infix_nil]
  | cons c hay ih =>
    simp [listContainsSub, Bool.or_eq_true, ih,
      List.isPrefixOf_iff_prefix, List.infix_cons_iff]

/-- The code's not-found test agrees with the spec's wording. -/
theorem isNotFoundOutput_iff (s : String) :
    isNotFoundOutput s = true ↔ NotFoundDetected s := by
  simp [isNotFoundOutput, NotFoundDetected, Bool.or_eq_true,
    listContainsSub_iff_infix]

/-- `returncode or 0` equals `Option.getD 0`. -/
theorem pyOrInt_eq_getD (rc : Option Int) : pyOrInt rc 0 = rc.getD 0 := by
  match rc with
  | none => rfl
  | some n =>
    simp only [pyOrInt, Option.getD_some]
    split
    · omega
    · rfl

/-- `afterFirstHeader` is the drop-past-the-first-hit reading of
`headerIndex`. -/
theorem afterFirstHeader_eq (lines : List (List Char)) :
    afterFirstHeader lines = (headerIndex lines).map fun i => lines.drop (i + 1) := by
  induction lines with
  | nil => rfl
  | cons l ls ih =>
    cases hhl : isHeaderLine l with
    | true => simp [afterFirstHeader, headerIndex, hhl]
    | false =>
      cases hidx : headerIndex ls with
      | none => simp [afterFirstHeader, headerIndex, hhl, hidx, hidx ▸ ih]
      | some i =>
        simp only [afterFirstHeader, hhl, Bool.false_eq_true, if_false,
          headerIndex, hidx, Option.map_some, List.drop_succ_cons] at ih ⊢
        exact ih

/-- The teardown routine always returns. -/
theorem supervisorTeardown_total (hasStdin exitsWithinTimeout : Bool) (p : Proc) :
    ∃ p' tr, supervisorTeardown hasStdin exitsWithinTimeout p = some (p', tr) := by
  obtain ⟨rc, t, k, s, r⟩ := p
  cases rc with
  | some c => exact ⟨_, _, rfl⟩
  | none => cases hasStdin <;> cases exitsWithinTimeout <;> exact ⟨_, _, rfl⟩

/-- `cancelAndAwait` establishes the per-task cleanup guarantee. -/
theorem cancelAndAwait_finishes (t : TaskSt) :
    taskFinishedAfterCleanup t (cancelAndAwait t) := by
  obtain ⟨d, c⟩ := t
  cases d <;> cases c <;> simp [taskFinishedAfterCleanup, cancelAndAwait]

/-! ## Claim theorems -/

/-- C1: for every teardown of a terminal or watch session in which the
spawned process is still running (`returncode` unset), the teardown
routine closes stdin when it has one, sends the graceful-terminate
signal, waits at most 5 seconds, force-kills on timeout and then waits
unconditionally; it returns only once the process has exited and been
reaped. -/
theorem teardown_reaps_process (hasStdin exitsWithinTimeout : Bool) (p : Proc)
    (h : p.returncode = none) :
    ∃ p', supervisorTeardown hasStdin exitsWithinTimeout p
        = some (p', teardownSteps hasStdin exitsWithinTimeout)
      ∧ p'.termSignaled = true ∧ p'.reaped = true ∧ p'.returncode.isSome = true
      ∧ (exitsWithinTimeout = false → p'.killSignaled = true) := by
  obtain ⟨rc, t, k, s, r⟩ := p
  cases rc with
  | some c => simp at h
  | none =>
    cases hasStdin <;> cases exitsWithinTimeout <;>
      exact ⟨_, rfl, rfl, rfl, rfl, fun hx => by first | rfl | exact nomatch hx⟩

/-- C1 witness: a concrete still-running process that ignores the
terminate signal is killed and reaped by the terminal teardown. -/
theorem teardown_reaps_process_witness :
    ∃ p', supervisorTeardown true false ⟨none, false, false, false, false⟩
        = some (p', teardownSteps true false)
      ∧ p'.termSignaled = true ∧ p'.reaped = true ∧ p'.returncode.isSome = true
      ∧ (false = false → p'.killSignaled = true) :=
  teardown_reaps_process true false ⟨none, false, false, false, false⟩ rfl

/-- C2: in the terminal bridge, whenever any one of the three concurrent
tasks completes, the session ends: the `finally` block runs the process
teardown and cancels-and-awaits every other still-running task. -/
theorem terminal_first_completed_cleanup (exitsWithinTimeout : Bool) (p : Proc)
    (ts : TerminalTasks) (h : anyTaskDone ts = true) :
    ∃ p' tr ts',
      terminal_session_end exitsWithinTimeout p ts = some (p', tr, ts')
      ∧ terminal_teardown exitsWithinTimeout p = some (p', tr)
      ∧ taskFinishedAfterCleanup ts.stdoutTask ts'.stdoutTask
      ∧ taskFinishedAfterCleanup ts.stderrTask ts'.stderrTask
      ∧ taskFinishedAfterCleanup ts.inputTask ts'.inputTask := by
  obtain ⟨p', tr, htd⟩ := supervisorTeardown_total true exitsWithinTimeout p
  refine ⟨p', tr,
    ⟨cancelAndAwait ts.stdoutTask, cancelAndAwait ts.stderrTask,
      cancelAndAwait ts.inputTask⟩,
    ?_, htd, cancelAndAwait_finishes _, cancelAndAwait_finishes _,
    cancelAndAwait_finishes _⟩
  simp only [terminal_session_end, h, if_true, terminal_cleanup,
    terminal_teardown, htd]

/-- C2 witness: with only the inbound-relay task finished and the process
still running, the session ends, the process is torn down, and the two
reader tasks are cancelled and awaited. -/
theorem terminal_first_completed_cleanup_witness :
    ∃ p' tr ts',
      terminal_session_end false ⟨none, false, false, false, false⟩
          ⟨⟨false, false⟩, ⟨false, false⟩, ⟨true, false⟩⟩ = some (p', tr, ts')
      ∧ terminal_teardown false ⟨none, false, false, false, false⟩ = some (p', tr)
      ∧ taskFinishedAfterCleanup ⟨false, false⟩ ts'.stdoutTask
      ∧ taskFinishedAfterCleanup ⟨false, false⟩ ts'.stderrTask
      ∧ taskFinishedAfterCleanup ⟨true, false⟩ ts'.inputTask :=
  terminal_first_completed_cleanup false ⟨none, false, false, false, false⟩
    ⟨⟨false, false⟩, ⟨false, false⟩, ⟨true, false⟩⟩ rfl

/-- C3 counterexample: an inbound message that is malformed (fails to
decode as a JSON object — e.g. the text frame `not json`) does not leave
the inbound relay running: `receive_json` raises, the blanket handler
`break`s, and the relay task ends, which by the first-completed policy
triggers teardown.  This falsifies the claim that a malformed message
never terminates the session. -/
theorem malformed_input_ends_relay :
    relayContinues true InboundMsg.notAJsonObject = false := by decide

/-- C3 amended: a well-formed inbound JSON object not tagged as a stdin
command is ignored and the relay keeps running (writing nothing), but a
message that fails to decode as a JSON object ends the inbound relay
(and with it, via first-completed, the session). -/
theorem relay_input_handling (stdinWritable : Bool)
    (fields : List (String × String))
    (h : fields.lookup "type" ≠ some "stdin") :
    handle_websocket_input_step stdinWritable (InboundMsg.jsonObject fields)
        = RelayOut.keepRunning none
      ∧ handle_websocket_input_step stdinWritable InboundMsg.notAJsonObject
        = RelayOut.ends := by
  constructor
  · simp [handle_websocket_input_step, h]
  · rfl

/-- C3 amended witness: a JSON object tagged `resize` is ignored and the
relay keeps running. -/
theorem relay_input_handling_witness :
    handle_websocket_input_step true (InboundMsg.jsonObject [("type", "resize")])
        = RelayOut.keepRunning none
      ∧ handle_websocket_input_step true InboundMsg.notAJsonObject
        = RelayOut.ends :=
  relay_input_handling true [("type", "resize")] (by decide)

/-- C4 (code bug): in the scenario where the watcher process writes
exactly `line1\n` to stdout and exits, the client does receive exactly
one stdout message with that data — but the receive loop, given no
websocket event at all (the peer stays silently connected), never
breaks, so teardown is not reached: the process exiting does not
trigger teardown, only a peer disconnect does, contradicting the claim
and the handler's own comment `Wait for WebSocket close or command
completion`. -/
theorem watch_loop_ignores_process_exit :
    watch_handle_stdout [strCodes "line1\n"]
        = [⟨"stdout", strCodes "line1\n"⟩]
      ∧ watchReceiveLoopBreaks [] = false
      ∧ watchReceiveLoopBreaks [WatchLoopEvent.wsDisconnect] = true := by
  decide

/-- C5 counterexample: an inbound data message on the watch channel does
not trigger shutdown — `receive_text` returns the text, the value is
discarded, and the loop continues — falsifying the claim that any
inbound data triggers shutdown. -/
theorem inbound_text_does_not_shutdown :
    watchReceiveStep (WatchLoopEvent.textReceived "ping") = false := by decide

/-- C5 amended: the watch receive loop triggers shutdown exactly when a
close frame (peer disconnect) arrives; inbound data messages are read
and discarded without ending the session. -/
theorem watch_shutdown_only_on_disconnect :
    ∀ es : List WatchLoopEvent,
      watchReceiveLoopBreaks es = true ↔ WatchLoopEvent.wsDisconnect ∈ es := by
  intro es
  induction es with
  | nil => simp [watchReceiveLoopBreaks]
  | cons e es ih =>
    cases e with
    | textReceived s =>
      simp [watchReceiveLoopBreaks, watchReceiveStep, ih]
    | wsDisconnect =>
      simp [watchReceiveLoopBreaks, watchReceiveStep]

/-- C6 counterexample: on the invalid byte sequence `0xFF` the reader
forwards nothing and stops — the subsequent valid chunk `hi` is never
delivered — falsifying the best-effort / never-stop claim. -/
theorem invalid_utf8_stops_reader :
    utf8Decode [255] = none
      ∧ outputReaderLoop "stdout" [[255], [104, 105]] = [] := by decide

/-- C6 amended: the readers decode strictly, not best-effort: a unit
that is not valid UTF-8 raises, the blanket `except` ends the reader
without forwarding a message (the session itself does not crash), while
every valid non-empty unit is decoded and forwarded in order. -/
theorem reader_strict_decode (tag : String) (unit : List Nat)
    (rest : List (List Nat)) :
    (utf8Decode unit = none → outputReaderLoop tag (unit :: rest) = [])
      ∧ ∀ cps, unit ≠ [] → utf8Decode unit = some cps →
          outputReaderLoop tag (unit :: rest)
            = ⟨tag, cps⟩ :: outputReaderLoop tag rest := by
  constructor
  · intro h
    cases unit with
    | nil => exact Option.noConfusion h
    | cons b bs => simp [outputReaderLoop, h]
  · intro cps hne h
    cases unit with
    | nil => exact absurd rfl hne
    | cons b bs => simp [outputReaderLoop, h]

/-- C6 amended witness: the invalid byte `0xFF` ends the reader; the
valid chunk `h` is forwarded. -/
theorem reader_strict_decode_witness :
    outputReaderLoop "stdout" [[255]] = []
      ∧ outputReaderLoop "stdout" [[104]]
        = ⟨"stdout", [104]⟩ :: outputReaderLoop "stdout" [] :=
  ⟨(reader_strict_decode "stdout" [255] []).1 (by decide),
    (reader_strict_decode "stdout" [104] []).2 [104] (by decide) (by decide)⟩

/-- C7: a terminal connection with an empty environment identifier gets
exactly one structured error message, the connection is closed, and no
external process is spawned. -/
theorem terminal_empty_env_guard :
    terminal_websocket_entry ""
        = TerminalStartOutcome.errorClose ["Environment ID is required"]
      ∧ spawnsProcess (terminal_websocket_entry "") = false := by decide

/-- C8: for the logs/diff/action endpoints, a non-zero tool exit yields
404 exactly when the error output (`stderr or stdout`, i.e. stderr when
non-empty, else stdout) contains `not found` or `does not exist`
case-insensitively, and 500 otherwise; a zero exit yields 200 with the
captured stdout. -/
theorem endpoint_status_mapping (stdout stderr : String) (return_code : Int) :
    (return_code ≠ 0 →
      ((tool_result_status stdout stderr return_code = HttpOutcome.notFound404
          ↔ NotFoundDetected (error_output stdout stderr))
        ∧ (tool_result_status stdout stderr return_code = HttpOutcome.serverError500
          ↔ ¬ NotFoundDetected (error_output stdout stderr))))
    ∧ (return_code = 0 →
        tool_result_status stdout stderr return_code = HttpOutcome.ok200 stdout) := by
  have hb := isNotFoundOutput_iff (error_output stdout stderr)
  constructor
  · intro h
    cases hnf : isNotFoundOutput (error_output stdout stderr) with
    | false =>
      rw [hnf] at hb
      simp only [Bool.false_eq_true, false_iff] at hb
      exact ⟨by simp [tool_result_status, h, hnf, hb],
        by simp [tool_result_status, h, hnf, hb]⟩
    | true =>
      rw [hnf] at hb
      simp only [true_iff] at hb
      exact ⟨by simp [tool_result_status, h, hnf, hb],
        by simp [tool_result_status, h, hnf, hb]⟩
  · intro h
    simp [tool_result_status, h]

/-- C8 witness: exit code 1 with stderr `environment not found` maps to
404. -/
theorem endpoint_status_mapping_witness :
    tool_result_status "" "environment not found" 1 = HttpOutcome.notFound404 :=
  (((endpoint_status_mapping "" "environment not found" 1).1 (by decide)).1).mpr
    (Or.inl ⟨"environment ".data, [], by decide⟩)

/-- C9 counterexample: on a list output whose header row is preceded by a
data row, the code drops that data row too (the scan skips everything up
to and including the first row starting with `ID`), while the claim —
which skips only the (leading) header — keeps it. -/
theorem header_scan_counterexample :
    parse_environment_list ("a  b  c  d\nID  H1  H2  H3\ne  f  g  h").data
        = [⟨"e", "f", "g", "h"⟩]
      ∧ parse_environment_list_claimed ("a  b  c  d\nID  H1  H2  H3\ne  f  g  h").data
        = [⟨"a", "b", "c", "d"⟩, ⟨"ID", "H1", "H2", "H3"⟩,
            ⟨"e", "f", "g", "h"⟩] := by
  decide

/-- C9 amended: `parse_environment_list` drops every row up to and
including the first row whose stripped text begins with `ID` (none when
no such row exists), splits each remaining non-empty row on runs of
two-or-more whitespace characters, silently drops rows with fewer than
4 columns, and returns one `Environment` per remaining row built from
its first four columns in order. -/
theorem parse_environment_list_characterization (output : List Char) :
    parse_environment_list output = parse_environment_list_amended_spec output := by
  simp only [parse_environment_list, parse_environment_list_amended_spec,
    dropThroughFirstHeader]
  rw [afterFirstHeader_eq]
  cases hidx : headerIndex (splitNl (pyStrip output)) with
  | none => simp [hidx]
  | some i => simp [hidx]

/-- C10: `run_container_use_command` is total at its interface: an
exception from spawning or communicating yields `("", str(e), 1)`, and
otherwise the decoded stdout and stderr are returned together with the
exit code, a missing exit code mapping to 0. -/
theorem run_command_total_interface :
    (∀ message, run_container_use_command (CommResult.raised message)
        = ([], strCodes message, 1))
      ∧ ∀ o e rc so se, utf8Decode o = some so → utf8Decode e = some se →
          run_container_use_command (CommResult.completed o e rc)
            = (so, se, rc.getD 0) := by
  constructor
  · intro message
    rfl
  · intro o e rc so se ho he
    have hd : ∀ (l cs : List Nat), utf8Decode l = some cs →
        (if l = [] then some [] else utf8Decode l) = some cs := by
      intro l cs h
      cases l with
      | nil => exact h
      | cons b bs => simpa using h
    simp [run_container_use_command, hd o so ho, hd e se he, pyOrInt_eq_getD]

/-- C10 witness: an exception message is returned as
`("", message, 1)`; a clean run returns the decoded streams and exit
code 0. -/
theorem run_command_total_interface_witness :
    run_container_use_command (CommResult.raised "boom")
        = ([], strCodes "boom", 1)
      ∧ run_container_use_command (CommResult.completed (strCodes "ok") [] (some 0))
        = (strCodes "ok", [], Option.getD (some 0) 0) :=
  ⟨run_command_total_interface.1 "boom",
    run_command_total_interface.2 (strCodes "ok") [] (some 0) (strCodes "ok") []
      (by decide) (by decide)⟩
